import Mathlib

/-!
Shallow embedding of the `units` Python library (files `units/datatypes.py`,
`units/unit.py`, `units/constructor.py`).

Modelling conventions:
* Python numbers (`float`/`int` magnitudes, factors, offsets, exponents) are
  modelled as exact rationals `ℚ`; the decimal literals appearing in the
  source (`-273.15`, `9/5`, `1e5`, `6.242e+18`) are represented exactly.
* A Python `assert` that guards an operation is modelled by returning
  `Except UnitsError α`: `.ok` on the success path, `.error e` where the
  Python code would raise.
* The `bases` dictionary of a `Unit` is exposed through the `bases` property,
  which totalises it over every `SIBase` member (`{b: self._bases.get(b,0)
  for b in SIBase}`); accordingly the embedding stores `bases` directly as a
  total function `SIBase → ℚ`.
* `Unit.__rfloordiv__` takes an integer numerator, modelled as `ℤ`.
* `Unit.__pow__` accepts any numeric exponent in Python; the only exponents
  used anywhere in the repository are integers, and the embedding models the
  integer case (`ℤ`), with `zpow` for the factor.
-/

namespace UnitsLib

/-- The fixed enumeration of base SI dimensions, in the declaration order of
`SIBase` in `datatypes.py`: KILOGRAM, SECOND, KELVIN, AMPERE, MOLE, METER. -/
inductive SIBase where
  | KILOGRAM
  | SECOND
  | KELVIN
  | AMPERE
  | MOLE
  | METER
deriving DecidableEq, Fintype, Repr

/-- Iteration order of the `SIBase` enum, used by every dict comprehension
`for b in SIBase` in the source. -/
def siBaseOrder : List SIBase :=
  [SIBase.KILOGRAM, SIBase.SECOND, SIBase.KELVIN, SIBase.AMPERE,
   SIBase.MOLE, SIBase.METER]

/-- The `value` of each enum member (its display symbol). -/
def SIBase.value : SIBase → String
  | SIBase.KILOGRAM => "kg"
  | SIBase.SECOND => "s"
  | SIBase.KELVIN => "K"
  | SIBase.AMPERE => "A"
  | SIBase.MOLE => "mol"
  | SIBase.METER => "m"

/-- Error taxonomy: one constructor per distinct `assert` in the source. -/
inductive UnitsError where
  | affineUnitMisuse
  | unitMismatch
  | incompatibleDimension
  | nonUnitlessCast
  | nonIntegralCast
  | dimensionValidation
  | invalidReciprocal
  | invalidDerivation
deriving DecidableEq, Repr

/-- `Unit` from `datatypes.py`: a label, a total exponent assignment over the
base dimensions (the view given by the `bases` property), a multiplicative
`factor` and an additive `offset`. -/
structure Unit where
  label : String
  bases : SIBase → ℚ
  factor : ℚ
  offset : ℚ

/-- `Unit.__eq__`: structural equality on factor, offset and the full bases
mapping; labels are excluded. -/
def unitEq (a b : Unit) : Prop :=
  a.factor = b.factor ∧ a.offset = b.offset ∧ ∀ base, a.bases base = b.bases base

instance (a b : Unit) : Decidable (unitEq a b) :=
  inferInstanceAs (Decidable (a.factor = b.factor ∧ a.offset = b.offset ∧
    ∀ base, a.bases base = b.bases base))

/-- The unguarded result of `Unit.__mul__` (the value built once the offset
assert has passed): summed exponents, multiplied factors, offset 0 (the
`Unit` constructor default). -/
def Unit.mulRaw (a u : Unit) : Unit :=
  { label := a.label ++ "·" ++ u.label
    bases := fun b => a.bases b + u.bases b
    factor := a.factor * u.factor
    offset := 0 }

/-- `Unit.__mul__`: asserts `self.offset == 0` (only the left operand), then
returns the raw product. -/
def Unit.mul (a u : Unit) : Except UnitsError Unit :=
  if a.offset = 0 then Except.ok (Unit.mulRaw a u)
  else Except.error UnitsError.affineUnitMisuse

/-- The unguarded result of `Unit.__truediv__`: subtracted exponents, but the
factor is `self.factor*u.factor` exactly as written in the source (the
source multiplies the factors in division as well). -/
def Unit.divRaw (a u : Unit) : Unit :=
  { label := a.label ++ "·" ++ u.label
    bases := fun b => a.bases b - u.bases b
    factor := a.factor * u.factor
    offset := 0 }

/-- `Unit.__truediv__`: asserts `self.offset == 0` (left operand only), then
returns the raw quotient. -/
def Unit.div (a u : Unit) : Except UnitsError Unit :=
  if a.offset = 0 then Except.ok (Unit.divRaw a u)
  else Except.error UnitsError.affineUnitMisuse

/-- The unguarded result of `Unit.__pow__` with an integer exponent. -/
def Unit.powRaw (a : Unit) (p : ℤ) : Unit :=
  { label := a.label ++ "^" ++ toString p
    bases := fun b => a.bases b * p
    factor := a.factor ^ p
    offset := 0 }

/-- `Unit.__pow__`: asserts `self.offset == 0`. -/
def Unit.pow (a : Unit) (p : ℤ) : Except UnitsError Unit :=
  if a.offset = 0 then Except.ok (Unit.powRaw a p)
  else Except.error UnitsError.affineUnitMisuse

/-- The unguarded result of `Unit.__rfloordiv__` (`1 // u`): negated
exponents (`{b:-v for b,v in self.bases.items()}`, where the comprehension's
`v` is the exponent) and factor `1/self.factor`. -/
def Unit.recipRaw (a : Unit) : Unit :=
  { label := "1/" ++ a.label
    bases := fun b => -(a.bases b)
    factor := 1 / a.factor
    offset := 0 }

/-- `Unit.__rfloordiv__`: asserts the numerator `v == 1` first, then
`self.offset == 0`, then returns the raw reciprocal. -/
def Unit.rfloordiv (v : ℤ) (a : Unit) : Except UnitsError Unit :=
  if v = 1 then
    if a.offset = 0 then Except.ok (Unit.recipRaw a)
    else Except.error UnitsError.affineUnitMisuse
  else Except.error UnitsError.invalidReciprocal

/-- `Unit.toUnit`: asserts `factor == 1 and offset == 0`, then rebuilds the
unit under a new label (factor 1, offset 0 by the constructor defaults). -/
def Unit.toUnit (a : Unit) (label : String) : Except UnitsError Unit :=
  if a.factor = 1 ∧ a.offset = 0 then
    Except.ok { label := label, bases := a.bases, factor := 1, offset := 0 }
  else Except.error UnitsError.invalidDerivation

/-- The `bases` property of an `SIBase` member: exponent 1 on itself, 0 on
every other base dimension. -/
def SIBase.bases (b : SIBase) : SIBase → ℚ :=
  fun x => if x = b then 1 else 0

/-- `SIBase.unit`: the member viewed as a plain `Unit` (label = its symbol,
factor 1, offset 0). -/
def SIBase.unit (b : SIBase) : Unit :=
  { label := b.value, bases := b.bases, factor := 1, offset := 0 }

/-!
`Unit.stdLabel` machinery. The source builds
`basedict = {pow: k.value for k, pow in self.bases.items() if pow != 0}` —
a Python dict KEYED BY THE EXPONENT, so two dimensions sharing the same
nonzero exponent collide: the later one (in `SIBase` enum order) overwrites
the symbol while the key keeps its first insertion position. Then
`reversed(sorted(basedict.items()))` lists the (exponent, symbol) pairs in
descending exponent order (keys are unique, so no tie-breaking arises), and
they are joined with `·`, each symbol suffixed `^pow` when the exponent is
not 1.
-/

/-- Insertion into a Python dict represented as an association list in
insertion order: overwriting an existing key keeps its position, a new key
is appended at the end. -/
def dictInsert (l : List (ℚ × String)) (key : ℚ) (v : String) :
    List (ℚ × String) :=
  match l with
  | [] => [(key, v)]
  | (k, w) :: t =>
      if k = key then (key, v) :: t else (k, w) :: dictInsert t key v

/-- The dict comprehension `{pow: k.value for k, pow in self.bases.items()
if pow != 0}`, iterating the totalised `bases` view in enum order. -/
def Unit.basedict (u : Unit) : List (ℚ × String) :=
  List.foldl
    (fun acc b =>
      if u.bases b ≠ 0 then dictInsert acc (u.bases b) b.value else acc)
    [] siBaseOrder

/-- Insert one (exponent, symbol) pair into a list sorted ascending by
exponent. -/
def insertAsc (x : ℚ × String) : List (ℚ × String) → List (ℚ × String)
  | [] => [x]
  | y :: t => if x.1 ≤ y.1 then x :: y :: t else y :: insertAsc x t

/-- `sorted` on the (exponent, symbol) pairs: ascending by exponent (the
keys of a dict are distinct, so the second tuple component never decides). -/
def sortAsc (l : List (ℚ × String)) : List (ℚ × String) :=
  List.foldr insertAsc [] l

/-- Rendering of an exponent by `'^%s' % pow`. Every exponent occurring in
the repository is integral and is printed the way Python prints an int; a
non-integral rational is printed as `num/den`. -/
def ratStr (q : ℚ) : String :=
  if q.den = 1 then toString q.num else toString q.num ++ "/" ++ toString q.den

/-- One joined element: the symbol, suffixed with `^pow` when the exponent
is not 1. -/
def expLabel (p : ℚ × String) : String :=
  p.2 ++ (if p.1 ≠ 1 then "^" ++ ratStr p.1 else "")

/-- `Unit.stdLabel`: rebuild the unit (same bases, factor and offset) under
the display label computed from `reversed(sorted(basedict.items()))`. -/
def Unit.stdLabel (u : Unit) : Unit :=
  { label :=
      String.intercalate "·"
        (List.map expLabel (List.reverse (sortAsc u.basedict)))
    bases := u.bases
    factor := u.factor
    offset := u.offset }

/-- `UnitVal` from `datatypes.py`: a magnitude paired with a unit. -/
structure UnitVal where
  val : ℚ
  unit : Unit

/-- The dimensionless default unit `Unit()` (label `''`, empty bases dict
totalised to all-zero, factor 1, offset 0). -/
def dimensionless : Unit :=
  { label := "", bases := fun _ => 0, factor := 1, offset := 0 }

/-- `UnitVal.__call__`: the value in SI units,
`(self.val - self.unit.offset) / self.unit.factor`. -/
def UnitVal.call (q : UnitVal) : ℚ :=
  (q.val - q.unit.offset) / q.unit.factor

/-- `Unit.__rmul__`: `val * u` wraps the number in a `UnitVal`. -/
def Unit.rmul (v : ℚ) (u : Unit) : UnitVal :=
  { val := v, unit := u }

/-- `UnitVal.__add__`: asserts `self.unit == u.unit` (structural equality),
then builds `UnitVal(self.val + u.val, self.unit * u.unit)` — the result
unit is the PRODUCT of the two equal units, whose own offset assert may in
turn fail. -/
def UnitVal.add (a u : UnitVal) : Except UnitsError UnitVal :=
  if unitEq a.unit u.unit then
    Except.map (fun un => UnitVal.mk (a.val + u.val) un) (Unit.mul a.unit u.unit)
  else Except.error UnitsError.unitMismatch

/-- `UnitVal.__sub__`: same shape as `__add__` with the difference of
values. -/
def UnitVal.sub (a u : UnitVal) : Except UnitsError UnitVal :=
  if unitEq a.unit u.unit then
    Except.map (fun un => UnitVal.mk (a.val - u.val) un) (Unit.mul a.unit u.unit)
  else Except.error UnitsError.unitMismatch

/-- `UnitVal.__mul__` applied to another `UnitVal`. -/
def UnitVal.mulV (a u : UnitVal) : Except UnitsError UnitVal :=
  Except.map (fun un => UnitVal.mk (a.val * u.val) un) (Unit.mul a.unit u.unit)

/-- `UnitVal.__truediv__` applied to another `UnitVal`. -/
def UnitVal.divV (a u : UnitVal) : Except UnitsError UnitVal :=
  Except.map (fun un => UnitVal.mk (a.val / u.val) un) (Unit.div a.unit u.unit)

/-- `UnitVal.__float__`: asserts every base exponent is 0, then returns the
magnitude unchanged (no rescaling by factor or offset). -/
def UnitVal.toFloat (q : UnitVal) : Except UnitsError ℚ :=
  if ∀ b, q.unit.bases b = 0 then Except.ok q.val
  else Except.error UnitsError.nonUnitlessCast

/-- `UnitVal.__int__`: same dimensionless assert, then asserts
`int(self.val) == self.val` (the magnitude has no fractional part, i.e. its
reduced denominator is 1) and returns it as an integer. -/
def UnitVal.toInt (q : UnitVal) : Except UnitsError ℤ :=
  if ∀ b, q.unit.bases b = 0 then
    if q.val.den = 1 then Except.ok q.val.num
    else Except.error UnitsError.nonIntegralCast
  else Except.error UnitsError.nonUnitlessCast

/-- `UnitVal.toUnit`: a new named unit with the value's bases and factor
`self.unit.factor * self.val` (offset 0 by the constructor default). -/
def UnitVal.toUnit (q : UnitVal) (label : String) : Unit :=
  { label := label
    bases := q.unit.bases
    factor := q.unit.factor * q.val
    offset := 0 }

/-- `UnitVal.to`: convert to a compatible unit. With no target
(`u_ = None`), the target is `Unit(bases = self.unit.bases)` — same bases,
factor 1, offset 0, empty label. Asserts `u.bases == self.unit.bases`, then
returns `UnitVal((self_si * u.factor) + u.offset, u)` where `self_si` is
the SI value `(self.val - self.unit.offset) / self.unit.factor`. -/
def UnitVal.to (q : UnitVal) (uOpt : Option Unit) : Except UnitsError UnitVal :=
  let u := uOpt.getD
    { label := "", bases := q.unit.bases, factor := 1, offset := 0 }
  if ∀ b, u.bases b = q.unit.bases b then
    Except.ok
      { val := (q.val - q.unit.offset) / q.unit.factor * u.factor + u.offset
        unit := u }
  else Except.error UnitsError.incompatibleDimension

/-- `SafeConstructor.__init__` from `constructor.py`: asserts
`unit.bases == default.bases` (dimension signature only) and on success
stores the input's `val` and `unit` unchanged. -/
def SafeConstructor (default : Unit) (v : UnitVal) : Except UnitsError UnitVal :=
  if ∀ b, v.unit.bases b = default.bases b then
    Except.ok { val := v.val, unit := v.unit }
  else Except.error UnitsError.dimensionValidation

/-!
The unit catalog of `unit.py`. Every algebraic construction there succeeds
(each left operand has offset 0 and each `toUnit` source has factor 1 and
offset 0), so the catalog values are written with the unguarded `Raw`
operations; sanity lemmas below connect them to the guarded operators.
-/

/-- `kg = SIBase['KILOGRAM']`. -/
def kg : SIBase := SIBase.KILOGRAM

/-- `s = SIBase['SECOND']`. -/
def s : SIBase := SIBase.SECOND

/-- `K = SIBase['KELVIN']`. -/
def K : SIBase := SIBase.KELVIN

/-- `A = SIBase['AMPERE']`. -/
def A : SIBase := SIBase.AMPERE

/-- `mol = SIBase['MOLE']`. -/
def mol : SIBase := SIBase.MOLE

/-- `m = SIBase['METER']`. -/
def m : SIBase := SIBase.METER

/-- `C = Unit('C', {K:1}, offset = -273.15)` (Celsius; the stored sparse
dict `{K:1}` totalises to exponent 1 on KELVIN and 0 elsewhere). -/
def C : Unit :=
  { label := "C", bases := SIBase.KELVIN.bases, factor := 1, offset := -273.15 }

/-- `F = Unit('F', {K:1}, factor = 9/5, offset = -459.67)` (Fahrenheit). -/
def F : Unit :=
  { label := "F", bases := SIBase.KELVIN.bases, factor := 9/5,
    offset := -459.67 }

/-- `N = kg * (m/s**2)` (Newton). -/
def N : Unit :=
  Unit.mulRaw kg.unit (Unit.divRaw m.unit (Unit.powRaw s.unit 2))

/-- `J = N * m` (Joule). -/
def J : Unit := Unit.mulRaw N m.unit

/-- `Pa = (N / m**2).toUnit('Pa')` (Pascal; the source of the derivation has
factor 1 and offset 0, so `toUnit` succeeds and rebuilds with factor 1). -/
def Pa : Unit :=
  { label := "Pa"
    bases := (Unit.divRaw N (Unit.powRaw m.unit 2)).bases
    factor := 1
    offset := 0 }

/-- `bar = (1e5 * Pa).toUnit('bar')`. -/
def bar : Unit := UnitVal.toUnit (Unit.rmul 100000 Pa) "bar"

/-- `eV = (1/6.242e+18 * J).toUnit('eV')` (with the numeric literal taken
exactly). -/
def eV : Unit := UnitVal.toUnit (Unit.rmul (1 / 6.242e18) J) "eV"

/-- `Hz = 1 // s` (Hertz; the numerator is 1 and the second has offset 0,
so `__rfloordiv__` succeeds and yields the raw reciprocal). -/
def Hz : Unit := Unit.recipRaw s.unit

/-- `Temp(val_)` wraps `SafeConstructor.__init__(K, val_)`. -/
def Temp (v : UnitVal) : Except UnitsError UnitVal := SafeConstructor K.unit v

/-- `Pressure(val_)` wraps `SafeConstructor.__init__(Pa, val_)`. -/
def Pressure (v : UnitVal) : Except UnitsError UnitVal := SafeConstructor Pa v

/-- `Length(val_)` wraps `SafeConstructor.__init__(m, val_)`. -/
def Length (v : UnitVal) : Except UnitsError UnitVal := SafeConstructor m.unit v

/-- `Energy(val_)` wraps `SafeConstructor.__init__(J, val_)`. -/
def Energy (v : UnitVal) : Except UnitsError UnitVal := SafeConstructor J v

/-!
Theorems. First the sanity lemmas tying the catalog to the guarded
operators, then one theorem per verified claim about the library.
-/

/-- Sanity: the guarded product defining `N` succeeds. -/
theorem N_from_guarded :
    Unit.mul kg.unit (Unit.divRaw m.unit (Unit.powRaw s.unit 2)) =
      Except.ok N := rfl

/-- Sanity: the guarded `toUnit` defining `Pa` succeeds. -/
theorem Pa_from_guarded :
    Unit.toUnit (Unit.divRaw N (Unit.powRaw m.unit 2)) "Pa" = Except.ok Pa := by
  rw [Unit.toUnit, if_pos]
  · rfl
  · exact ⟨by norm_num [Unit.divRaw, Unit.powRaw, N, Unit.mulRaw, SIBase.unit],
           by norm_num [Unit.divRaw]⟩

/-- Sanity: the guarded reciprocal defining `Hz` succeeds. -/
theorem Hz_from_guarded : Unit.rfloordiv 1 s.unit = Except.ok Hz := rfl

/-- C1: the claim says `divide(a, b)` yields factor `a.factor / b.factor`;
the code multiplies the factors instead. At the repository's own unit `bar`
(factor `1e5`), `bar / bar` succeeds and yields factor `1e10`, while the
claimed factor would be `1`; the bases are the elementwise difference as
claimed. -/
theorem div_multiplies_factors :
    Unit.div bar bar = Except.ok (Unit.divRaw bar bar)
    ∧ (Unit.divRaw bar bar).factor = 10000000000
    ∧ bar.factor / bar.factor = 1
    ∧ (∀ b, (Unit.divRaw bar bar).bases b = bar.bases b - bar.bases b) := by
  refine ⟨?_, ?_, ?_, fun b => rfl⟩
  · rw [Unit.div, if_pos]
    rfl
  · simp [Unit.divRaw, bar, UnitVal.toUnit, Unit.rmul, Pa]
    norm_num
  · norm_num [bar, UnitVal.toUnit, Unit.rmul, Pa]

/-- C2: the claim says `multiply(a, b)` fails whenever either operand has a
nonzero offset; the code only checks the LEFT operand's offset, so
`METER * CELSIUS` succeeds (returning the raw product with the Kelvin
exponent of Celsius) even though Celsius has a nonzero offset, while
`CELSIUS * METER` fails as the claim expects. -/
theorem mul_right_offset_unchecked :
    Unit.mul m.unit C = Except.ok (Unit.mulRaw m.unit C)
    ∧ C.offset ≠ 0
    ∧ (Unit.mulRaw m.unit C).bases SIBase.KELVIN = 1
    ∧ Unit.mul C m.unit = Except.error UnitsError.affineUnitMisuse := by
  refine ⟨?_, by norm_num [C], ?_, ?_⟩
  · rw [Unit.mul, if_pos]
    rfl
  · simp [Unit.mulRaw, C, SIBase.unit, SIBase.bases, m]
  · rw [Unit.mul, if_neg]
    norm_num [C]

/-- C3: `UnitVal.__add__` fails with the mismatched-units error when the two
units are not structurally equal, and when they are equal it returns the sum
of the values paired with the PRODUCT `a.unit * b.unit` of the two equal
units (not simply `a.unit`). -/
theorem add_mismatch_and_product_unit :
    (∀ a b : UnitVal, ¬ unitEq a.unit b.unit →
      UnitVal.add a b = Except.error UnitsError.unitMismatch)
    ∧ (∀ (a b : UnitVal) (u : Unit), unitEq a.unit b.unit →
        Unit.mul a.unit b.unit = Except.ok u →
        UnitVal.add a b = Except.ok (UnitVal.mk (a.val + b.val) u)) := by
  constructor
  · intro a b h
    rw [UnitVal.add, if_neg h]
  · intro a b u h hm
    rw [UnitVal.add, if_pos h, hm]
    rfl

/-- Witness for C3: `5 J + 3 J` (Joule equals kg·m²/s² structurally)
succeeds with value 8, and the result unit is the product `J * J` with its
doubled exponents, not `J`. -/
theorem add_mismatch_and_product_unit_witness :
    UnitVal.add ⟨5, J⟩ ⟨3, J⟩ = Except.ok ⟨5 + 3, Unit.mulRaw J J⟩
    ∧ (Unit.mulRaw J J).bases SIBase.METER = 4 := by
  constructor
  · exact add_mismatch_and_product_unit.2 ⟨5, J⟩ ⟨3, J⟩ (Unit.mulRaw J J)
      ⟨rfl, rfl, fun base => rfl⟩ rfl
  · simp [Unit.mulRaw, J, N, Unit.divRaw, Unit.powRaw, SIBase.unit,
      SIBase.bases, kg, m, s]
    norm_num

/-- C4: `UnitVal.to` fails with the incompatible-dimension error when the
target's bases differ from the source unit's, otherwise returns the target
unit with value `(q.val - q.unit.offset) / q.unit.factor * t.factor +
t.offset`; with no target it converts to the unit with the same bases,
factor 1 and offset 0, the value being the SI value `UnitVal.call`. -/
theorem to_conversion :
    (∀ (q : UnitVal) (t : Unit), ¬ (∀ b, t.bases b = q.unit.bases b) →
      UnitVal.to q (some t) = Except.error UnitsError.incompatibleDimension)
    ∧ (∀ (q : UnitVal) (t : Unit), (∀ b, t.bases b = q.unit.bases b) →
        UnitVal.to q (some t) = Except.ok
          ⟨(q.val - q.unit.offset) / q.unit.factor * t.factor + t.offset, t⟩)
    ∧ (∀ q : UnitVal, UnitVal.to q none = Except.ok
        ⟨UnitVal.call q, ⟨"", q.unit.bases, 1, 0⟩⟩) := by
  refine ⟨?_, ?_, ?_⟩
  · intro q t h
    simp only [UnitVal.to, Option.getD]
    rw [if_neg h]
  · intro q t h
    simp only [UnitVal.to, Option.getD]
    rw [if_pos h]
  · intro q
    simp [UnitVal.to, Option.getD, UnitVal.call]

/-- Witness for C4: 32 °F converts to exactly 0 °C, and a conversion from
meters to seconds is rejected. -/
theorem to_conversion_witness :
    UnitVal.to ⟨32, F⟩ (some C) = Except.ok ⟨0, C⟩
    ∧ UnitVal.to ⟨1, m.unit⟩ (some s.unit) =
        Except.error UnitsError.incompatibleDimension := by
  constructor
  · have h := to_conversion.2.1 ⟨32, F⟩ C (fun b => rfl)
    rw [h]
    norm_num [F, C]
  · refine to_conversion.1 ⟨1, m.unit⟩ s.unit (fun h => ?_)
    have := h SIBase.METER
    simp [SIBase.unit, SIBase.bases, m, s] at this

/-- C5: the safe constructor succeeds exactly when the input's bases equal
the expected dimension's bases (factor and offset are never examined), and
on success it stores the input's value and unit unchanged — no conversion;
a mismatch fails with the dimension-validation error. -/
theorem safeConstructor_checks_bases_only :
    (∀ (d : Unit) (v : UnitVal), (∀ b, v.unit.bases b = d.bases b) →
      SafeConstructor d v = Except.ok ⟨v.val, v.unit⟩)
    ∧ (∀ (d : Unit) (v : UnitVal), ¬ (∀ b, v.unit.bases b = d.bases b) →
      SafeConstructor d v = Except.error UnitsError.dimensionValidation) := by
  constructor
  · intro d v h
    rw [SafeConstructor, if_pos h]
  · intro d v h
    rw [SafeConstructor, if_neg h]

/-- Witness for C5: 32 °F wrapped by `Temp` succeeds and keeps both the
value 32 and the Fahrenheit unit (whose factor is not 1 and offset not 0),
while `Length` applied to seconds is rejected. -/
theorem safeConstructor_checks_bases_only_witness :
    Temp ⟨32, F⟩ = Except.ok ⟨32, F⟩
    ∧ F.factor ≠ 1
    ∧ F.offset ≠ 0
    ∧ Length ⟨100, s.unit⟩ = Except.error UnitsError.dimensionValidation := by
  refine ⟨?_, by norm_num [F], by norm_num [F], ?_⟩
  · exact safeConstructor_checks_bases_only.1 K.unit ⟨32, F⟩ (fun b => rfl)
  · refine safeConstructor_checks_bases_only.2 m.unit ⟨100, s.unit⟩
      (fun h => ?_)
    have := h SIBase.METER
    simp [SIBase.unit, SIBase.bases, m, s] at this

/-- C6: `1 // a` requires the numerator to be exactly 1 and `a.offset = 0`,
and then returns the unit with negated exponents and factor `1/a.factor`;
any other numerator fails with the invalid-reciprocal error, a nonzero
offset with the affine error; `1 // s` is structurally equal to `Hz`. -/
theorem rfloordiv_reciprocal :
    (∀ a : Unit, a.offset = 0 → Unit.rfloordiv 1 a =
      Except.ok ⟨"1/" ++ a.label, fun b => -(a.bases b), 1 / a.factor, 0⟩)
    ∧ (∀ (v : ℤ) (a : Unit), v ≠ 1 →
        Unit.rfloordiv v a = Except.error UnitsError.invalidReciprocal)
    ∧ (∀ a : Unit, a.offset ≠ 0 →
        Unit.rfloordiv 1 a = Except.error UnitsError.affineUnitMisuse)
    ∧ Unit.rfloordiv 1 s.unit = Except.ok Hz
    ∧ unitEq (Unit.recipRaw s.unit) Hz := by
  refine ⟨?_, ?_, ?_, rfl, ⟨rfl, rfl, fun base => rfl⟩⟩
  · intro a h
    rw [Unit.rfloordiv, if_pos rfl, if_pos h]
    rfl
  · intro v a h
    rw [Unit.rfloordiv, if_neg h]
  · intro a h
    rw [Unit.rfloordiv, if_pos rfl, if_neg h]

/-- Witness for C6: the reciprocal of the second succeeds with negated
exponents and factor 1; numerator 2 is rejected; Celsius is rejected. -/
theorem rfloordiv_reciprocal_witness :
    Unit.rfloordiv 1 s.unit = Except.ok
      ⟨"1/" ++ s.unit.label, fun b => -(s.unit.bases b), 1 / s.unit.factor, 0⟩
    ∧ Unit.rfloordiv 2 s.unit = Except.error UnitsError.invalidReciprocal
    ∧ Unit.rfloordiv 1 C = Except.error UnitsError.affineUnitMisuse :=
  ⟨rfloordiv_reciprocal.1 s.unit rfl,
   rfloordiv_reciprocal.2.1 2 s.unit (by norm_num),
   rfloordiv_reciprocal.2.2.1 C (by norm_num [C])⟩

/-- C7: casting to a plain number fails unless every base exponent is 0 and
otherwise returns the magnitude unchanged (no rescaling by factor or
offset); casting to an integer additionally fails when the magnitude has a
fractional part and otherwise returns it as an integer. -/
theorem unitless_casts :
    (∀ q : UnitVal, ¬ (∀ b, q.unit.bases b = 0) →
      UnitVal.toFloat q = Except.error UnitsError.nonUnitlessCast
      ∧ UnitVal.toInt q = Except.error UnitsError.nonUnitlessCast)
    ∧ (∀ q : UnitVal, (∀ b, q.unit.bases b = 0) →
        UnitVal.toFloat q = Except.ok q.val)
    ∧ (∀ q : UnitVal, (∀ b, q.unit.bases b = 0) → q.val.den = 1 →
        UnitVal.toInt q = Except.ok q.val.num)
    ∧ (∀ q : UnitVal, (∀ b, q.unit.bases b = 0) → q.val.den ≠ 1 →
        UnitVal.toInt q = Except.error UnitsError.nonIntegralCast) := by
  refine ⟨?_, ?_, ?_, ?_⟩
  · intro q h
    exact ⟨by rw [UnitVal.toFloat, if_neg h], by rw [UnitVal.toInt, if_neg h]⟩
  · intro q h
    rw [UnitVal.toFloat, if_pos h]
  · intro q h hd
    rw [UnitVal.toInt, if_pos h, if_pos hd]
  · intro q h hd
    rw [UnitVal.toInt, if_pos h, if_neg hd]

/-- Witness for C7: a ratio of meters casts to 10; a velocity does not
cast; a dimensionless unit with factor 100 still returns the raw value 7
(no rescaling); 10 casts to the integer 10, while 21/2 fails the integer
cast. -/
theorem unitless_casts_witness :
    UnitVal.toFloat ⟨10, Unit.divRaw m.unit m.unit⟩ = Except.ok 10
    ∧ UnitVal.toFloat ⟨100, Unit.divRaw m.unit s.unit⟩ =
        Except.error UnitsError.nonUnitlessCast
    ∧ UnitVal.toFloat ⟨7, ⟨"", fun _ => 0, 100, 0⟩⟩ = Except.ok 7
    ∧ UnitVal.toInt ⟨10, dimensionless⟩ = Except.ok 10
    ∧ UnitVal.toInt ⟨21/2, dimensionless⟩ =
        Except.error UnitsError.nonIntegralCast := by
  refine ⟨?_, ?_, ?_, ?_, ?_⟩
  · exact unitless_casts.2.1 ⟨10, Unit.divRaw m.unit m.unit⟩
      (fun b => by simp [Unit.divRaw])
  · exact (unitless_casts.1 ⟨100, Unit.divRaw m.unit s.unit⟩
      (fun h => by
        have := h SIBase.METER
        simp [Unit.divRaw, SIBase.unit, SIBase.bases, m, s] at this)).1
  · exact unitless_casts.2.1 ⟨7, ⟨"", fun _ => 0, 100, 0⟩⟩ (fun b => rfl)
  · have h := unitless_casts.2.2.1 ⟨10, dimensionless⟩ (fun b => rfl)
      (by norm_num)
    rw [h]
    norm_num
  · exact unitless_casts.2.2.2 ⟨21/2, dimensionless⟩ (fun b => rfl)
      (by norm_num)

/-- C8: converting a quantity to a compatible unit and back to its original
unit returns exactly the original value (exact rational arithmetic; both
factors nonzero per the data-model invariant that factors are positive). -/
theorem roundtrip_conversion (q : UnitVal) (t : Unit)
    (hb : ∀ b, t.bases b = q.unit.bases b)
    (hq : q.unit.factor ≠ 0) (ht : t.factor ≠ 0) :
    ∃ q1 q2, UnitVal.to q (some t) = Except.ok q1
      ∧ UnitVal.to q1 (some q.unit) = Except.ok q2
      ∧ q2.val = q.val := by
  have h1 : UnitVal.to q (some t) = Except.ok
      ⟨(q.val - q.unit.offset) / q.unit.factor * t.factor + t.offset, t⟩ := by
    simp only [UnitVal.to, Option.getD]
    rw [if_pos hb]
  have h2 : UnitVal.to
      ⟨(q.val - q.unit.offset) / q.unit.factor * t.factor + t.offset, t⟩
      (some q.unit) = Except.ok
      ⟨((q.val - q.unit.offset) / q.unit.factor * t.factor + t.offset
          - t.offset) / t.factor * q.unit.factor + q.unit.offset, q.unit⟩ := by
    simp only [UnitVal.to, Option.getD]
    rw [if_pos (fun b => (hb b).symm)]
  refine ⟨_, _, h1, h2, ?_⟩
  field_simp
  ring

/-- Witness for C8: 32 °F to Celsius and back to Fahrenheit returns
exactly 32. -/
theorem roundtrip_conversion_witness :
    ∃ q1 q2, UnitVal.to ⟨32, F⟩ (some C) = Except.ok q1
      ∧ UnitVal.to q1 (some F) = Except.ok q2
      ∧ q2.val = 32 :=
  roundtrip_conversion ⟨32, F⟩ C (fun b => rfl) (by norm_num [F])
    (by norm_num [C])

/-- C9: the claim says the canonical label lists one symbol per base
dimension with nonzero exponent, none dropped; but `stdLabel` keys its
intermediate dict by the exponent, so dimensions sharing a nonzero exponent
collide. For `N = kg·m/s²` (kilogram, meter and second exponents 1, 1, −2)
the produced label is `m·s^-2`: the kilogram symbol is dropped. -/
theorem stdLabel_drops_kilogram :
    N.bases SIBase.KILOGRAM = 1
    ∧ N.bases SIBase.METER = 1
    ∧ N.bases SIBase.SECOND = -2
    ∧ (Unit.stdLabel N).label = "m·s^-2" := by
  refine ⟨?_, ?_, ?_, ?_⟩
  · simp [N, Unit.mulRaw, Unit.divRaw, Unit.powRaw, SIBase.unit,
      SIBase.bases, kg, m, s]
  · simp [N, Unit.mulRaw, Unit.divRaw, Unit.powRaw, SIBase.unit,
      SIBase.bases, kg, m, s]
  · simp [N, Unit.mulRaw, Unit.divRaw, Unit.powRaw, SIBase.unit,
      SIBase.bases, kg, m, s]
  · simp [Unit.stdLabel, Unit.basedict, siBaseOrder, List.foldl, dictInsert,
      N, Unit.mulRaw, Unit.divRaw, Unit.powRaw, SIBase.unit, SIBase.bases,
      SIBase.value, kg, m, s, sortAsc, insertAsc]
    rw [if_neg (by norm_num)]
    norm_num [expLabel, ratStr, Rat.den_neg_eq_den, Rat.num_neg_eq_neg_num]
    rfl

/-- C10: adding or subtracting two quantities with structurally equal units
of nonzero offset (e.g. two Celsius temperatures) fails with the affine
error, because the result unit is the product of the two units and unit
multiplication rejects a left operand with nonzero offset; with offset 0
the addition succeeds. -/
theorem equal_affine_units_add_sub_fail :
    (∀ a b : UnitVal, unitEq a.unit b.unit → a.unit.offset ≠ 0 →
      UnitVal.add a b = Except.error UnitsError.affineUnitMisuse
      ∧ UnitVal.sub a b = Except.error UnitsError.affineUnitMisuse)
    ∧ (∀ a b : UnitVal, unitEq a.unit b.unit → a.unit.offset = 0 →
        UnitVal.add a b =
          Except.ok ⟨a.val + b.val, Unit.mulRaw a.unit b.unit⟩) := by
  constructor
  · intro a b he ho
    constructor
    · rw [UnitVal.add, if_pos he, Unit.mul, if_neg ho]
      rfl
    · rw [UnitVal.sub, if_pos he, Unit.mul, if_neg ho]
      rfl
  · intro a b he ho
    rw [UnitVal.add, if_pos he, Unit.mul, if_pos ho]
    rfl

/-- Witness for C10: 20 °C + 5 °C and 20 °C − 5 °C both fail with the
affine error even though the units are equal; 1 J + 2 J succeeds. -/
theorem equal_affine_units_add_sub_fail_witness :
    UnitVal.add ⟨20, C⟩ ⟨5, C⟩ = Except.error UnitsError.affineUnitMisuse
    ∧ UnitVal.sub ⟨20, C⟩ ⟨5, C⟩ = Except.error UnitsError.affineUnitMisuse
    ∧ UnitVal.add ⟨1, J⟩ ⟨2, J⟩ = Except.ok ⟨1 + 2, Unit.mulRaw J J⟩ := by
  have h := equal_affine_units_add_sub_fail.1 ⟨20, C⟩ ⟨5, C⟩
    ⟨rfl, rfl, fun base => rfl⟩ (by norm_num [C])
  exact ⟨h.1, h.2, equal_affine_units_add_sub_fail.2 ⟨1, J⟩ ⟨2, J⟩
    ⟨rfl, rfl, fun base => rfl⟩ rfl⟩

end UnitsLib
